import Mathlib

/-!
Verification of the tw-live-frontend monitor dashboard core.

The definitions below are a shallow embedding of the client-side
reconciliation, pagination and refresh-trigger logic of the repository:

* `VideoItem`, `StatusItem`, `HealthStatus` mirror the interfaces of
  `src/hooks/useYTLiveApi.ts`;
* `MonitorItem` mirrors the interface of `src/components/MonitorList.tsx`;
* `loadDataRows`, `mkRow`, `statusLookup` embed the merge step of
  `loadData` in `src/pages/Index.tsx` (lines 72-99);
* `loadDataStep` embeds one whole `loadData` cycle over the outcomes of
  the two required gateway calls (lines 61-122);
* `handlePageSizeChange`, `applyStatusFilterChange`, `handlePageChange`,
  `clickNext`, `clickPrev`, `totalPages` embed the pagination handlers of
  `Index.tsx` and the button-disabling logic of `MonitorList.tsx`;
* `extractVideoId` embeds the composite-id parsing of
  `handleDeleteMonitor`, and `rowId` its synthesis;
* `inFlightStep` embeds the refresh-trigger discipline: the auto-refresh
  effect arms `setInterval(loadData, ...)` and `handleManualRefresh`
  calls `loadData()` unconditionally, with no in-flight check anywhere.

JavaScript string semantics used by the source are embedded explicitly:
`strTruthy` is string truthiness (only `""` is falsy), `jsToUpper` is
`toUpperCase` (character-wise, as on ASCII input), `strIncludes` is
`String.prototype.includes`, and `splitChar`/`joinChar` are
`split("-")`/`join("-")` at the character-list level.
-/

/-- The `VideoItem` interface of `useYTLiveApi.ts`: `video_id: string`,
optional `name`. -/
structure VideoItem where
  video_id : String
  name : Option String
  deriving Repr, DecidableEq

/-- The `StatusItem` interface of `useYTLiveApi.ts`: `video_id`,
`is_live_now`, optional `live_status`, `checked_at`, optional `note`. -/
structure StatusItem where
  video_id : String
  is_live_now : Bool
  live_status : Option String
  checked_at : String
  note : Option String
  deriving Repr, DecidableEq

/-- The `HealthStatus` interface of `useYTLiveApi.ts`. -/
structure HealthStatus where
  ok : Bool
  watching : Nat
  cached : Nat
  deriving Repr, DecidableEq

/-- The three-valued `status` field of `MonitorItem`
(`"live" | "offline" | "error"` in `MonitorList.tsx`). -/
inductive MonitorStatus
  | live
  | offline
  | error
  deriving Repr, DecidableEq

/-- The `MonitorItem` interface of `MonitorList.tsx`. -/
structure MonitorItem where
  id : String
  videoId : String
  name : Option String
  thumbnail : String
  status : MonitorStatus
  details : String
  checkTime : String
  deriving Repr, DecidableEq

/-- JavaScript string truthiness: the empty string is the only falsy
string. -/
def strTruthy (s : String) : Bool :=
  !s.data.isEmpty

/-- JavaScript `String.prototype.toUpperCase`, character-wise (the
source only ever uppercases ASCII status labels). -/
def jsToUpper (s : String) : String :=
  ⟨s.data.map Char.toUpper⟩

/-- Decides (as `chStarts pat l`) whether `pat` is a prefix of `l`. -/
def chStarts : List Char → List Char → Bool
  | [], _ => true
  | _ :: _, [] => false
  | a :: as, b :: bs => (a == b) && chStarts as bs

/-- Decides (as `chOccurs pat l`) whether `pat` occurs contiguously in `l`:
the character-level meaning of JavaScript `l.includes(pat)`. -/
def chOccurs (pat : List Char) : List Char → Bool
  | [] => chStarts pat []
  | c :: rest => chStarts pat (c :: rest) || chOccurs pat rest

/-- JavaScript `s.includes(pat)`. -/
def strIncludes (s pat : String) : Bool :=
  chOccurs pat.data s.data

/-- The "not yet checked" sentinel label used by `loadData`. -/
def notYetChecked : String := "尚未檢測"

/-- The `Map` built by `loadData` (`statuses.forEach((s) =>
statusMap.set(s.video_id, s))`) keeps, for each key, the record from the
last `set` call; `statusLookup` returns that last matching record. -/
def statusLookup : List StatusItem → String → Option StatusItem
  | [], _ => none
  | s :: rest, vid =>
    match statusLookup rest vid with
    | some r => some r
    | none => if s.video_id = vid then some s else none

/-- JavaScript `a || b` where `a` is a possibly-undefined string
(`undefined` and `""` are falsy). -/
def jsOrElse (a : Option String) (b : String) : String :=
  match a with
  | some s => if strTruthy s then s else b
  | none => b

/-- One element of the `videos.map((v, index) => ...)` body of
`loadData` (`Index.tsx` lines 77-99).  `fmt` stands for
`(iso : String) => new Date(iso).toLocaleString("zh-TW")`, which depends
on the runtime locale and is kept abstract. -/
def mkRow (fmt : String → String) (statuses : List StatusItem)
    (v : VideoItem) (index : Nat) : MonitorItem :=
  let status := statusLookup statuses v.video_id
  let liveStatus := (status.bind (·.live_status)).map jsToUpper
  let monitorStatus : MonitorStatus :=
    if (status.map (·.is_live_now)).getD false then .live
    else if (match status.bind (·.note) with
             | some n => strTruthy n && strIncludes n "error"
             | none => false) then .error
    else .offline
  { id := "video-" ++ v.video_id ++ "-" ++ Nat.repr index
    videoId := v.video_id
    name := v.name.bind (fun n => if strTruthy n then some n else none)
    thumbnail := "https://i.ytimg.com/vi/" ++ v.video_id ++ "/mqdefault.jpg"
    status := monitorStatus
    details := jsOrElse liveStatus (jsOrElse (status.bind (·.note)) notYetChecked)
    checkTime :=
      match status with
      | some s => if strTruthy s.checked_at then fmt s.checked_at else notYetChecked
      | none => notYetChecked }

/-- Embeds `videos.map((v, index) => ...)` with the running index made
explicit. -/
def mergeFrom (fmt : String → String) (statuses : List StatusItem) :
    List VideoItem → Nat → List MonitorItem
  | [], _ => []
  | v :: vs, index => mkRow fmt statuses v index :: mergeFrom fmt statuses vs (index + 1)

/-- The reconciliation step of `loadData`: merge the fetched `videos`
and `statuses` into the `monitorItems` list. -/
def loadDataRows (fmt : String → String) (videos : List VideoItem)
    (statuses : List StatusItem) : List MonitorItem :=
  mergeFrom fmt statuses videos 0

example :
    loadDataRows id [⟨"abc12345678", none⟩] [] =
      [{ id := "video-abc12345678-0"
         videoId := "abc12345678"
         name := none
         thumbnail := "https://i.ytimg.com/vi/abc12345678/mqdefault.jpg"
         status := .offline
         details := "尚未檢測"
         checkTime := "尚未檢測" }] := by
  decide

example :
    (loadDataRows id [⟨"v1", none⟩]
        [⟨"v1", true, some "live", "", none⟩]).map MonitorItem.details = ["LIVE"] := by
  decide

example :
    (loadDataRows id [⟨"v1", none⟩]
        [⟨"v1", false, none, "", some "fetch error"⟩]).map MonitorItem.status = [.error] := by
  decide

/-- The state touched by one `loadData` cycle (`monitors`, `isConnected`,
`healthStats`, `lastUpdate` in `Index.tsx`). -/
structure DashboardState where
  monitors : List MonitorItem
  isConnected : Bool
  watching : Nat
  cached : Nat
  lastUpdate : String
  deriving Repr, DecidableEq

/-- One whole `loadData` cycle (`Index.tsx` lines 61-122) over the
outcomes of the two required gateway calls.  `fetchVideos`/`fetchStatus`
may reject (`Except.error`); `checkHealth` never rejects.  `Promise.all`
rejects as soon as either required call rejects, so the catch branch
runs: `setIsConnected(false)` plus one destructive toast, everything
else untouched.  On success the snapshot is rebuilt wholesale and
`lastUpdate` is stamped with `now`.  The returned `Nat` counts the
failure toasts raised by the cycle. -/
def loadDataStep (fmt : String → String) (now : String)
    (videosRes : Except Unit (List VideoItem))
    (statusRes : Except Unit (List StatusItem))
    (health : HealthStatus) (st : DashboardState) : DashboardState × Nat :=
  match videosRes, statusRes with
  | .ok videos, .ok statuses =>
    ({ monitors := loadDataRows fmt videos statuses
       isConnected := health.ok
       watching := health.watching
       cached := health.cached
       lastUpdate := now }, 0)
  | .error _, _ => ({ st with isConnected := false }, 1)
  | _, .error _ => ({ st with isConnected := false }, 1)

/-- The refresh-trigger events of the dashboard: a `setInterval` tick of
the auto-refresh effect, a click on the manual-refresh button, and the
settlement of one in-flight `loadData` invocation. -/
inductive RefreshEvent
  | tick
  | manual
  | complete
  deriving Repr, DecidableEq

/-- How the number of in-flight `loadData` invocations evolves: the
auto-refresh effect (`Index.tsx` lines 131-138) arms
`setInterval(loadData, ...)` and `handleManualRefresh` (lines 211-217)
calls `loadData()` directly; neither consults any in-flight flag, so
every tick and every manual trigger starts one more invocation
unconditionally, and a completion settles one. -/
def inFlightStep : Nat → RefreshEvent → Nat
  | n, .tick => n + 1
  | n, .manual => n + 1
  | n, .complete => n - 1

/-- In-flight `loadData` invocations after a trace of trigger events,
starting from the idle state. -/
def inFlightAfter (events : List RefreshEvent) : Nat :=
  events.foldl inFlightStep 0

/-- The filter/pagination state of `Index.tsx` (`currentPage`,
`pageSize`, `statusFilter`). -/
structure PageState where
  currentPage : Nat
  pageSize : Nat
  statusFilter : String
  deriving Repr, DecidableEq

/-- Embeds `handlePageSizeChange` (`Index.tsx` lines 240-243): store the new
size and reset `currentPage` to 1. -/
def handlePageSizeChange (st : PageState) (size : Nat) : PageState :=
  { st with pageSize := size, currentPage := 1 }

/-- The status-filter change path: `AddMonitorForm` receives
`onStatusFilterChange={setStatusFilter}` (`Index.tsx` line 270) and its
`Select` calls that callback directly, so only `statusFilter` changes. -/
def applyStatusFilterChange (st : PageState) (filter : String) : PageState :=
  { st with statusFilter := filter }

/-- Embeds `handlePageChange` (`Index.tsx` lines 236-238): store the requested
page with no clamping. -/
def handlePageChange (_st : PageState) (page : Nat) : Nat :=
  page

/-- Embeds `totalPages = Math.ceil(totalItems / pageSize)` in
`MonitorList.tsx` line 41, for a positive page size. -/
def totalPages (totalItems pageSize : Nat) : Nat :=
  (totalItems + pageSize - 1) / pageSize

/-- The previous-page button is disabled exactly when
`currentPage === 1` (`MonitorList.tsx` line 173). -/
def prevDisabled (currentPage : Nat) : Bool :=
  currentPage == 1

/-- The next-page button is disabled exactly when
`currentPage === totalPages` (`MonitorList.tsx` line 190). -/
def nextDisabled (currentPage tPages : Nat) : Bool :=
  currentPage == tPages

/-- Clicking the next-page button: a no-op when disabled, else
`onPageChange(currentPage + 1)` stored unclamped. -/
def clickNext (totalItems pageSize currentPage : Nat) : Nat :=
  if nextDisabled currentPage (totalPages totalItems pageSize) then currentPage
  else currentPage + 1

/-- Clicking the previous-page button: a no-op when disabled, else
`onPageChange(currentPage - 1)` stored unclamped. -/
def clickPrev (currentPage : Nat) : Nat :=
  if prevDisabled currentPage then currentPage else currentPage - 1

/-- Embeds `l.split("-")` at the character level: `splitChar c l` cuts `l` at
every occurrence of `c`. -/
def splitChar (c : Char) : List Char → List (List Char)
  | [] => [[]]
  | x :: xs =>
    if x = c then [] :: splitChar c xs
    else
      match splitChar c xs with
      | [] => [[x]]
      | y :: ys => (x :: y) :: ys

/-- Embeds `parts.join("-")` at the character level. -/
def joinChar (c : Char) : List (List Char) → List Char
  | [] => []
  | [x] => x
  | x :: y :: ys => x ++ c :: joinChar c (y :: ys)

/-- The composite row id synthesized by `loadData`
(`` `video-${v.video_id}-${index}` ``). -/
def rowId (videoId : String) (index : Nat) : String :=
  "video-" ++ videoId ++ "-" ++ Nat.repr index

/-- The extraction in `handleDeleteMonitor` (`Index.tsx` lines 189-192):
`id.split("-").slice(1, -1).join("-")`. -/
def extractVideoId (id : String) : String :=
  ⟨joinChar '-' (((splitChar '-' id.data).drop 1).dropLast)⟩

example : extractVideoId (rowId "a-b-c" 7) = "a-b-c" := by decide
example : extractVideoId (rowId "" 0) = "" := by decide
example : extractVideoId (rowId "-x-" 12) = "-x-" := by decide

theorem strTruthy_of_includes_error (n : String) (h : strIncludes n "error" = true) :
    strTruthy n = true := by
  cases hn : n.data with
  | nil =>
    exfalso
    have hfalse : strIncludes n "error" = false := by
      unfold strIncludes
      rw [hn]
      decide
    rw [hfalse] at h
    exact Bool.false_ne_true h
  | cons a l =>
    unfold strTruthy
    rw [hn]
    rfl

theorem strTruthy_ne_empty (s : String) (h : strTruthy s = true) : s ≠ "" := by
  intro hs
  subst hs
  exact Bool.false_ne_true h

theorem mergeFrom_length (fmt : String → String) (ss : List StatusItem) :
    ∀ (vs : List VideoItem) (k : Nat), (mergeFrom fmt ss vs k).length = vs.length := by
  intro vs
  induction vs with
  | nil => intro k; rfl
  | cons v vs ih => intro k; simp [mergeFrom, ih]

theorem mergeFrom_get (fmt : String → String) (ss : List StatusItem) :
    ∀ (vs : List VideoItem) (k i : Nat) (h : i < (mergeFrom fmt ss vs k).length)
      (h' : i < vs.length),
      (mergeFrom fmt ss vs k).get ⟨i, h⟩ = mkRow fmt ss (vs.get ⟨i, h'⟩) (k + i) := by
  intro vs
  induction vs with
  | nil => intro k i h h'; exact absurd h' (Nat.not_lt_zero i)
  | cons v vs ih =>
    intro k i h h'
    cases i with
    | zero => rfl
    | succ n =>
      have hk : k + 1 + n = k + (n + 1) := by omega
      have ht : n < (mergeFrom fmt ss vs (k + 1)).length := by
        rw [mergeFrom_length]
        exact Nat.lt_of_succ_lt_succ h'
      calc (mergeFrom fmt ss (v :: vs) k).get ⟨n + 1, h⟩
          = (mergeFrom fmt ss vs (k + 1)).get ⟨n, ht⟩ := rfl
        _ = mkRow fmt ss (vs.get ⟨n, Nat.lt_of_succ_lt_succ h'⟩) (k + 1 + n) := ih _ _ _ _
        _ = mkRow fmt ss ((v :: vs).get ⟨n + 1, h'⟩) (k + (n + 1)) := by rw [hk]; rfl

theorem loadDataRows_length (fmt : String → String) (videos : List VideoItem)
    (ss : List StatusItem) : (loadDataRows fmt videos ss).length = videos.length :=
  mergeFrom_length fmt ss videos 0

theorem loadDataRows_get (fmt : String → String) (videos : List VideoItem)
    (ss : List StatusItem) (i : Nat) (h : i < (loadDataRows fmt videos ss).length)
    (h' : i < videos.length) :
    (loadDataRows fmt videos ss).get ⟨i, h⟩ = mkRow fmt ss (videos.get ⟨i, h'⟩) i := by
  have := mergeFrom_get fmt ss videos 0 i h h'
  rwa [Nat.zero_add] at this

theorem statusLookup_eq_none (ss : List StatusItem) (vid : String)
    (h : ∀ s ∈ ss, s.video_id ≠ vid) : statusLookup ss vid = none := by
  induction ss with
  | nil => rfl
  | cons s rest ih =>
    unfold statusLookup
    rw [ih (fun t ht => h t (List.mem_cons_of_mem s ht))]
    simp [h s (List.mem_cons_self s rest)]

theorem strTruthy_jsToUpper (n : String) : strTruthy (jsToUpper n) = strTruthy n := by
  obtain ⟨d⟩ := n
  cases d <;> rfl

theorem mkRow_status_of_none (fmt : String → String) (ss : List StatusItem)
    (v : VideoItem) (index : Nat) (h : statusLookup ss v.video_id = none) :
    (mkRow fmt ss v index).status = MonitorStatus.offline := by
  simp [mkRow, h]

theorem mkRow_status_of_live (fmt : String → String) (ss : List StatusItem)
    (v : VideoItem) (index : Nat) (s : StatusItem)
    (h : statusLookup ss v.video_id = some s) (hl : s.is_live_now = true) :
    (mkRow fmt ss v index).status = MonitorStatus.live := by
  simp [mkRow, h, hl]

theorem mkRow_status_of_error (fmt : String → String) (ss : List StatusItem)
    (v : VideoItem) (index : Nat) (s : StatusItem) (n : String)
    (h : statusLookup ss v.video_id = some s) (hl : s.is_live_now = false)
    (hn : s.note = some n) (hinc : strIncludes n "error" = true) :
    (mkRow fmt ss v index).status = MonitorStatus.error := by
  simp [mkRow, h, hl, hn, hinc, strTruthy_of_includes_error n hinc]

theorem mkRow_status_of_offline (fmt : String → String) (ss : List StatusItem)
    (v : VideoItem) (index : Nat) (s : StatusItem)
    (h : statusLookup ss v.video_id = some s) (hl : s.is_live_now = false)
    (hnote : ¬ ∃ n, s.note = some n ∧ strIncludes n "error" = true) :
    (mkRow fmt ss v index).status = MonitorStatus.offline := by
  have hcond : (match s.note with
      | some n => strTruthy n && strIncludes n "error"
      | none => false) = false := by
    cases hn : s.note with
    | none => rfl
    | some n =>
      by_cases hinc : strIncludes n "error" = true
      · exact absurd ⟨n, hn, hinc⟩ hnote
      · simp [Bool.eq_false_iff.mpr hinc]
  simp [mkRow, h, hl, hcond]

theorem mkRow_details_of_none (fmt : String → String) (ss : List StatusItem)
    (v : VideoItem) (index : Nat) (h : statusLookup ss v.video_id = none) :
    (mkRow fmt ss v index).details = notYetChecked := by
  simp [mkRow, h, jsOrElse]

theorem mkRow_checkTime_of_none (fmt : String → String) (ss : List StatusItem)
    (v : VideoItem) (index : Nat) (h : statusLookup ss v.video_id = none) :
    (mkRow fmt ss v index).checkTime = notYetChecked := by
  simp [mkRow, h]

/-- C1: for every video registration and its matching status record (if
any), the reconciler classifies the row as LIVE whenever `is_live_now`
is true (regardless of note content), otherwise as ERROR whenever `note`
contains the case-sensitive substring "error", and otherwise as
OFFLINE. -/
theorem claim_C1 (fmt : String → String) (videos : List VideoItem)
    (statuses : List StatusItem) (i : Nat)
    (h : i < (loadDataRows fmt videos statuses).length) (h' : i < videos.length) :
    (statusLookup statuses ((videos.get ⟨i, h'⟩).video_id) = none →
      ((loadDataRows fmt videos statuses).get ⟨i, h⟩).status = MonitorStatus.offline) ∧
    (∀ s : StatusItem, statusLookup statuses ((videos.get ⟨i, h'⟩).video_id) = some s →
      (s.is_live_now = true →
        ((loadDataRows fmt videos statuses).get ⟨i, h⟩).status = MonitorStatus.live) ∧
      (s.is_live_now = false →
        (∃ n, s.note = some n ∧ strIncludes n "error" = true) →
        ((loadDataRows fmt videos statuses).get ⟨i, h⟩).status = MonitorStatus.error) ∧
      (s.is_live_now = false →
        (¬ ∃ n, s.note = some n ∧ strIncludes n "error" = true) →
        ((loadDataRows fmt videos statuses).get ⟨i, h⟩).status = MonitorStatus.offline)) := by
  rw [loadDataRows_get fmt videos statuses i h h']
  constructor
  · intro hnone
    exact mkRow_status_of_none fmt statuses _ i hnone
  · intro s hs
    refine ⟨fun hlive => ?_, fun hoff hnote => ?_, fun hoff hnote => ?_⟩
    · exact mkRow_status_of_live fmt statuses _ i s hs hlive
    · obtain ⟨n, hn, hinc⟩ := hnote
      exact mkRow_status_of_error fmt statuses _ i s n hs hoff hn hinc
    · exact mkRow_status_of_offline fmt statuses _ i s hs hoff hnote

/-- C1 witness: a live record with an error note classifies as LIVE, and
a non-live record with an error note classifies as ERROR. -/
theorem claim_C1_witness :
    statusLookup [⟨"v1", true, none, "", some "an error"⟩] (([(⟨"v1", none⟩ : VideoItem)].get ⟨0, by decide⟩).video_id) = some ⟨"v1", true, none, "", some "an error"⟩ ∧
    ((loadDataRows id [⟨"v1", none⟩] [⟨"v1", true, none, "", some "an error"⟩]).get ⟨0, by decide⟩).status = MonitorStatus.live := by
  refine ⟨by decide, ?_⟩
  exact ((claim_C1 id [⟨"v1", none⟩] [⟨"v1", true, none, "", some "an error"⟩] 0
    (by decide) (by decide)).2 ⟨"v1", true, none, "", some "an error"⟩ (by decide)).1 rfl

/-- C4: reconciliation output has exactly one row per video
registration, in the same order as the videos list (row `i` carries the
`video_id` of video `i`). -/
theorem claim_C4 (fmt : String → String) (videos : List VideoItem)
    (statuses : List StatusItem) :
    (loadDataRows fmt videos statuses).length = videos.length ∧
    ∀ (i : Nat) (h : i < (loadDataRows fmt videos statuses).length)
      (h' : i < videos.length),
      ((loadDataRows fmt videos statuses).get ⟨i, h⟩).videoId =
        (videos.get ⟨i, h'⟩).video_id := by
  refine ⟨loadDataRows_length fmt videos statuses, ?_⟩
  intro i h h'
  rw [loadDataRows_get fmt videos statuses i h h']
  rfl

/-- C4 witness: a two-video list with no statuses yields two rows whose
`videoId` fields follow the input order. -/
theorem claim_C4_witness :
    (loadDataRows id [⟨"a", none⟩, ⟨"b", none⟩] []).length =
      [(⟨"a", none⟩ : VideoItem), ⟨"b", none⟩].length ∧
    ((loadDataRows id [⟨"a", none⟩, ⟨"b", none⟩] []).get ⟨1, by decide⟩).videoId =
      (([(⟨"a", none⟩ : VideoItem), ⟨"b", none⟩]).get ⟨1, by decide⟩).video_id :=
  ⟨(claim_C4 id [⟨"a", none⟩, ⟨"b", none⟩] []).1,
   (claim_C4 id [⟨"a", none⟩, ⟨"b", none⟩] []).2 1 (by decide) (by decide)⟩

/-- C5: a video with no matching status record yields an OFFLINE row
whose detail and last-checked labels are both the "尚未檢測" sentinel. -/
theorem claim_C5 (fmt : String → String) (videos : List VideoItem)
    (statuses : List StatusItem) (i : Nat)
    (h : i < (loadDataRows fmt videos statuses).length) (h' : i < videos.length)
    (hnone : ∀ s ∈ statuses, s.video_id ≠ (videos.get ⟨i, h'⟩).video_id) :
    ((loadDataRows fmt videos statuses).get ⟨i, h⟩).status = MonitorStatus.offline ∧
    ((loadDataRows fmt videos statuses).get ⟨i, h⟩).details = "尚未檢測" ∧
    ((loadDataRows fmt videos statuses).get ⟨i, h⟩).checkTime = "尚未檢測" := by
  rw [loadDataRows_get fmt videos statuses i h h']
  have hlk := statusLookup_eq_none statuses ((videos.get ⟨i, h'⟩).video_id) hnone
  exact ⟨mkRow_status_of_none fmt statuses _ i hlk,
    mkRow_details_of_none fmt statuses _ i hlk,
    mkRow_checkTime_of_none fmt statuses _ i hlk⟩

/-- C5 witness: the spec scenario `videos = [abc12345678]`,
`statuses = []`. -/
theorem claim_C5_witness :
    (∀ s ∈ ([] : List StatusItem), s.video_id ≠ (([(⟨"abc12345678", none⟩ : VideoItem)]).get ⟨0, by decide⟩).video_id) ∧
    ((loadDataRows id [⟨"abc12345678", none⟩] []).get ⟨0, by decide⟩).status = MonitorStatus.offline ∧
    ((loadDataRows id [⟨"abc12345678", none⟩] []).get ⟨0, by decide⟩).details = "尚未檢測" ∧
    ((loadDataRows id [⟨"abc12345678", none⟩] []).get ⟨0, by decide⟩).checkTime = "尚未檢測" :=
  ⟨fun s hs => absurd hs (List.not_mem_nil s),
   claim_C5 id [⟨"abc12345678", none⟩] [] 0 (by decide) (by decide)
     (fun s hs => absurd hs (List.not_mem_nil s))⟩

theorem jsOrElse_ne_empty (a : Option String) (b : String) (hb : b ≠ "") :
    jsOrElse a b ≠ "" := by
  cases a with
  | none => exact hb
  | some s =>
    by_cases hst : strTruthy s = true
    · simpa [jsOrElse, hst] using strTruthy_ne_empty s hst
    · simpa [jsOrElse, hst] using hb

theorem mkRow_details_ne_empty (fmt : String → String) (ss : List StatusItem)
    (v : VideoItem) (index : Nat) : (mkRow fmt ss v index).details ≠ "" := by
  simp only [mkRow]
  exact jsOrElse_ne_empty _ _ (jsOrElse_ne_empty _ _ (by decide))

theorem mkRow_details_of_liveLabel (fmt : String → String) (ss : List StatusItem)
    (v : VideoItem) (index : Nat) (s : StatusItem) (n : String)
    (h : statusLookup ss v.video_id = some s) (hn : s.live_status = some n)
    (ht : strTruthy n = true) : (mkRow fmt ss v index).details = jsToUpper n := by
  simp [mkRow, h, hn, jsOrElse, strTruthy_jsToUpper, ht]

theorem mkRow_details_fallback (fmt : String → String) (ss : List StatusItem)
    (v : VideoItem) (index : Nat) (s : StatusItem)
    (h : statusLookup ss v.video_id = some s)
    (hn : s.live_status = none ∨ s.live_status = some "") :
    (mkRow fmt ss v index).details = jsOrElse s.note notYetChecked := by
  rcases hn with hn | hn <;>
    simp [mkRow, h, hn, jsOrElse, strTruthy_jsToUpper,
      show strTruthy "" = false from rfl]

/-- C2: whenever `fetchVideos` or `fetchStatus` rejects, the whole
`loadData` cycle fails atomically: `isConnected` is forced false, the
previous rows, counters and timestamp are retained unchanged, and
exactly one failure toast is raised. -/
theorem claim_C2 (fmt : String → String) (now : String)
    (videosRes : Except Unit (List VideoItem))
    (statusRes : Except Unit (List StatusItem))
    (health : HealthStatus) (st : DashboardState)
    (hfail : videosRes = Except.error () ∨ statusRes = Except.error ()) :
    (loadDataStep fmt now videosRes statusRes health st).1.isConnected = false ∧
    (loadDataStep fmt now videosRes statusRes health st).1.monitors = st.monitors ∧
    (loadDataStep fmt now videosRes statusRes health st).1.watching = st.watching ∧
    (loadDataStep fmt now videosRes statusRes health st).1.cached = st.cached ∧
    (loadDataStep fmt now videosRes statusRes health st).1.lastUpdate = st.lastUpdate ∧
    (loadDataStep fmt now videosRes statusRes health st).2 = 1 := by
  rcases hfail with hf | hf
  · subst hf
    cases statusRes <;> exact ⟨rfl, rfl, rfl, rfl, rfl, rfl⟩
  · subst hf
    cases videosRes <;> exact ⟨rfl, rfl, rfl, rfl, rfl, rfl⟩

/-- C2 witness: the spec scenario where `fetchVideos` resolves but
`fetchStatus` rejects, from a nonempty previous snapshot. -/
theorem claim_C2_witness :
    ((Except.ok [] : Except Unit (List VideoItem)) = Except.error () ∨
      (Except.error () : Except Unit (List StatusItem)) = Except.error ()) ∧
    (loadDataStep id "t1" (Except.ok []) (Except.error ()) ⟨true, 9, 9⟩
        ⟨[], true, 3, 4, "t0"⟩).1.isConnected = false ∧
    (loadDataStep id "t1" (Except.ok []) (Except.error ()) ⟨true, 9, 9⟩
        ⟨[], true, 3, 4, "t0"⟩).1.watching = 3 ∧
    (loadDataStep id "t1" (Except.ok []) (Except.error ()) ⟨true, 9, 9⟩
        ⟨[], true, 3, 4, "t0"⟩).2 = 1 := by
  have h := claim_C2 id "t1" (Except.ok []) (Except.error ()) ⟨true, 9, 9⟩
    ⟨[], true, 3, 4, "t0"⟩ (Or.inr rfl)
  exact ⟨Or.inr rfl, h.1, h.2.2.1, h.2.2.2.2.2⟩

/-- C3 counterexample: the claim "at most one reconciliation fetch is
ever in flight" is false — from the idle state, a scheduled tick
followed by a manual refresh while that tick's gateway calls are still
pending leaves two `loadData` invocations in flight, because neither the
timer callback nor `handleManualRefresh` consults any in-flight guard. -/
theorem claim_C3_counterexample :
    inFlightAfter [RefreshEvent.tick] = 1 ∧
    inFlightAfter [RefreshEvent.tick, RefreshEvent.manual] = 2 ∧
    ¬ inFlightAfter [RefreshEvent.tick, RefreshEvent.manual] ≤ 1 := by
  decide

/-- C3 amended: overlapping triggers are not suppressed or coalesced —
every scheduled tick and every manual refresh unconditionally starts one
more concurrent `loadData` invocation, whatever is already in flight. -/
theorem claim_C3 (n : Nat) (e : RefreshEvent)
    (h : e = RefreshEvent.tick ∨ e = RefreshEvent.manual) :
    inFlightStep n e = n + 1 := by
  rcases h with h | h <;> subst h <;> rfl

/-- C3 witness: a manual refresh with one tick already in flight yields
two in-flight invocations. -/
theorem claim_C3_witness :
    (RefreshEvent.manual = RefreshEvent.tick ∨
      RefreshEvent.manual = RefreshEvent.manual) ∧
    inFlightStep 1 RefreshEvent.manual = 1 + 1 :=
  ⟨Or.inr rfl, claim_C3 1 RefreshEvent.manual (Or.inr rfl)⟩

/-- C6 counterexample: changing the status filter does not reset the
page index — from page 3, selecting the "live" filter leaves
`currentPage` at 3, because `Index.tsx` passes the bare `setStatusFilter`
as `onStatusFilterChange`. -/
theorem claim_C6_counterexample :
    (applyStatusFilterChange ⟨3, 5, "all"⟩ "live").currentPage = 3 ∧
    (3 : Nat) ≠ 1 := by
  decide

/-- C6 amended: every change to the page size resets the page index to
the first page, but a change to the status filter leaves the page index
unchanged. -/
theorem claim_C6 (st : PageState) (size : Nat) (filter : String) :
    (handlePageSizeChange st size).currentPage = 1 ∧
    (applyStatusFilterChange st filter).currentPage = st.currentPage :=
  ⟨rfl, rfl⟩

/-- C7 counterexample: the page index is not confined to
`[1, max 1 ⌈filteredCount / pageSize⌉]` — in the reachable initial state
(`monitors = []`, `currentPage = 1`, `pageSize = 5`, filter "all") the
filtered count is 0, so `totalPages = 0`; the next-page button is
enabled (`currentPage === totalPages` is false) and clicking it stores
page 2, outside the claimed bound of 1. -/
theorem claim_C7_counterexample :
    nextDisabled 1 (totalPages 0 5) = false ∧
    clickNext 0 5 1 = 2 ∧
    ¬ clickNext 0 5 1 ≤ max 1 (totalPages 0 5) := by
  decide

/-- C7 amended: the prior/next controls keep the page index inside
`[1, totalPages]` only when it already lies in that range (which forces
`totalPages ≥ 1`); when the filtered count is 0, or the count shrinks
below the current page, nothing clamps the index and the next control
can push it past the bound (see the counterexample). -/
theorem claim_C7 (totalItems pageSize currentPage : Nat)
    (h1 : 1 ≤ currentPage) (h2 : currentPage ≤ totalPages totalItems pageSize) :
    1 ≤ clickNext totalItems pageSize currentPage ∧
    clickNext totalItems pageSize currentPage ≤ totalPages totalItems pageSize ∧
    1 ≤ clickPrev currentPage ∧
    clickPrev currentPage ≤ totalPages totalItems pageSize := by
  have hnext : clickNext totalItems pageSize currentPage = currentPage ∨
      (clickNext totalItems pageSize currentPage = currentPage + 1 ∧
        currentPage ≠ totalPages totalItems pageSize) := by
    unfold clickNext nextDisabled
    split
    · exact Or.inl rfl
    · rename_i hne
      exact Or.inr ⟨rfl, by simpa using hne⟩
  have hprev : (clickPrev currentPage = currentPage ∧ currentPage = 1) ∨
      (clickPrev currentPage = currentPage - 1 ∧ currentPage ≠ 1) := by
    unfold clickPrev prevDisabled
    split
    · rename_i heq
      exact Or.inl ⟨rfl, by simpa using heq⟩
    · rename_i hne
      exact Or.inr ⟨rfl, by simpa using hne⟩
  rcases hnext with hn | ⟨hn, hne⟩ <;> rcases hprev with ⟨hp, hpe⟩ | ⟨hp, hpe⟩ <;>
    rw [hn, hp] <;> omega

/-- C7 witness: 12 filtered rows at page size 5 give 3 pages; from page
2 both controls stay within bounds. -/
theorem claim_C7_witness :
    1 ≤ 2 ∧ 2 ≤ totalPages 12 5 ∧
    (1 ≤ clickNext 12 5 2 ∧ clickNext 12 5 2 ≤ totalPages 12 5 ∧
      1 ≤ clickPrev 2 ∧ clickPrev 2 ≤ totalPages 12 5) :=
  ⟨by decide, by decide, claim_C7 12 5 2 (by decide) (by decide)⟩

/-- C8 counterexample: the claim says the row's `detailLabel` is the
`liveStatusLabel` itself, so the scenario record with
`live_status = "live"` should yield `detailLabel = "live"`; the code
uppercases the label (`status?.live_status?.toUpperCase()`) and yields
"LIVE" instead. -/
theorem claim_C8_counterexample :
    (loadDataRows id [⟨"v1", none⟩]
        [⟨"v1", true, some "live", "", none⟩]).map MonitorItem.details = ["LIVE"] ∧
    (loadDataRows id [⟨"v1", none⟩]
        [⟨"v1", true, some "live", "", none⟩]).map MonitorItem.status =
      [MonitorStatus.live] ∧
    ("LIVE" : String) ≠ "live" := by
  decide

/-- C8 amended: for every status record with a present (nonempty)
`live_status` label, the row's `detailLabel` is the uppercased label
(falling back to `note` if `live_status` is absent, else the sentinel);
the scenario record with `live_status = "live"` yields status LIVE and
`detailLabel` exactly "LIVE". -/
theorem claim_C8 (fmt : String → String) (videos : List VideoItem)
    (statuses : List StatusItem) (i : Nat)
    (h : i < (loadDataRows fmt videos statuses).length) (h' : i < videos.length)
    (s : StatusItem)
    (hs : statusLookup statuses ((videos.get ⟨i, h'⟩).video_id) = some s) :
    (∀ n, s.live_status = some n → strTruthy n = true →
      ((loadDataRows fmt videos statuses).get ⟨i, h⟩).details = jsToUpper n) ∧
    (s.live_status = none →
      (∀ m, s.note = some m → strTruthy m = true →
        ((loadDataRows fmt videos statuses).get ⟨i, h⟩).details = m) ∧
      (s.note = none →
        ((loadDataRows fmt videos statuses).get ⟨i, h⟩).details = notYetChecked)) := by
  rw [loadDataRows_get fmt videos statuses i h h']
  constructor
  · intro n hn ht
    exact mkRow_details_of_liveLabel fmt statuses _ i s n hs hn ht
  · intro hnone
    have hfb := mkRow_details_fallback fmt statuses _ i s hs (Or.inl hnone)
    constructor
    · intro m hm ht
      rw [hfb, hm]
      simp [jsOrElse, ht]
    · intro hm
      rw [hfb, hm]
      rfl

/-- C8 witness: the spec scenario, with the amended conclusion
`detailLabel = toUpperCase "live" = "LIVE"`. -/
theorem claim_C8_witness :
    statusLookup [(⟨"v1", true, some "live", "", none⟩ : StatusItem)]
        (([(⟨"v1", none⟩ : VideoItem)].get ⟨0, by decide⟩).video_id) =
      some ⟨"v1", true, some "live", "", none⟩ ∧
    strTruthy "live" = true ∧
    ((loadDataRows id [⟨"v1", none⟩]
        [⟨"v1", true, some "live", "", none⟩]).get ⟨0, by decide⟩).details =
      jsToUpper "live" := by
  refine ⟨by decide, by decide, ?_⟩
  exact (claim_C8 id [⟨"v1", none⟩] [⟨"v1", true, some "live", "", none⟩] 0
      (by decide) (by decide) ⟨"v1", true, some "live", "", none⟩ (by decide)).1
    "live" rfl (by decide)

/-- C10: the reconciler treats empty-string fields as absent — with
`live_status = ""` the detail label falls back to the note (or the
sentinel when the note is absent or empty), and with `note = ""` the row
is never classified ERROR and the empty note is never used as the
detail label. -/
theorem claim_C10 (fmt : String → String) (videos : List VideoItem)
    (statuses : List StatusItem) (i : Nat)
    (h : i < (loadDataRows fmt videos statuses).length) (h' : i < videos.length)
    (s : StatusItem)
    (hs : statusLookup statuses ((videos.get ⟨i, h'⟩).video_id) = some s) :
    (s.live_status = some "" →
      (∀ m, s.note = some m → strTruthy m = true →
        ((loadDataRows fmt videos statuses).get ⟨i, h⟩).details = m) ∧
      (s.note = none →
        ((loadDataRows fmt videos statuses).get ⟨i, h⟩).details = notYetChecked) ∧
      (s.note = some "" →
        ((loadDataRows fmt videos statuses).get ⟨i, h⟩).details = notYetChecked)) ∧
    (s.note = some "" →
      ((loadDataRows fmt videos statuses).get ⟨i, h⟩).status ≠ MonitorStatus.error ∧
      ((loadDataRows fmt videos statuses).get ⟨i, h⟩).details ≠ "") := by
  rw [loadDataRows_get fmt videos statuses i h h']
  constructor
  · intro hls
    have hfb := mkRow_details_fallback fmt statuses _ i s hs (Or.inr hls)
    refine ⟨fun m hm ht => ?_, fun hm => ?_, fun hm => ?_⟩
    · rw [hfb, hm]
      simp [jsOrElse, ht]
    · rw [hfb, hm]
      rfl
    · rw [hfb, hm]
      simp [jsOrElse, show strTruthy "" = false from rfl]
  · intro hm
    constructor
    · have hnote : ¬ ∃ n, s.note = some n ∧ strIncludes n "error" = true := by
        rintro ⟨n, hn, hinc⟩
        rw [hm] at hn
        have hne : n = "" := Option.some.inj hn.symm
        subst hne
        exact absurd hinc (by decide)
      cases hl : s.is_live_now with
      | false =>
        rw [mkRow_status_of_offline fmt statuses _ i s hs hl hnote]
        decide
      | true =>
        rw [mkRow_status_of_live fmt statuses _ i s hs hl]
        decide
    · exact mkRow_details_ne_empty fmt statuses _ i

/-- C10 witness: a record with empty `live_status` and empty `note`
yields the sentinel detail label, a non-ERROR row, and a nonempty detail
label. -/
theorem claim_C10_witness :
    statusLookup [(⟨"v1", false, some "", "", some ""⟩ : StatusItem)]
        (([(⟨"v1", none⟩ : VideoItem)].get ⟨0, by decide⟩).video_id) =
      some ⟨"v1", false, some "", "", some ""⟩ ∧
    ((loadDataRows id [⟨"v1", none⟩]
        [⟨"v1", false, some "", "", some ""⟩]).get ⟨0, by decide⟩).details =
      notYetChecked ∧
    ((loadDataRows id [⟨"v1", none⟩]
        [⟨"v1", false, some "", "", some ""⟩]).get ⟨0, by decide⟩).status ≠
      MonitorStatus.error := by
  refine ⟨by decide, ?_, ?_⟩
  · exact ((claim_C10 id [⟨"v1", none⟩] [⟨"v1", false, some "", "", some ""⟩] 0
        (by decide) (by decide) ⟨"v1", false, some "", "", some ""⟩
        (by decide)).1 rfl).2.2 rfl
  · exact ((claim_C10 id [⟨"v1", none⟩] [⟨"v1", false, some "", "", some ""⟩] 0
        (by decide) (by decide) ⟨"v1", false, some "", "", some ""⟩
        (by decide)).2 rfl).1

theorem splitChar_cons_eq (c : Char) (xs : List Char) :
    splitChar c (c :: xs) = [] :: splitChar c xs := by
  simp [splitChar]

theorem splitChar_cons_ne (c x : Char) (xs : List Char) (hx : x ≠ c) :
    splitChar c (x :: xs) =
      match splitChar c xs with
      | [] => [[x]]
      | y :: t => (x :: y) :: t := by
  simp [splitChar, hx]

theorem splitChar_ne_nil (c : Char) : ∀ l : List Char, splitChar c l ≠ [] := by
  intro l
  induction l with
  | nil => simp [splitChar]
  | cons x xs ih =>
    by_cases hx : x = c
    · subst hx
      rw [splitChar_cons_eq]
      simp
    · rw [splitChar_cons_ne c x xs hx]
      cases h : splitChar c xs with
      | nil => exact absurd h ih
      | cons y t => simp

theorem splitChar_exists_cons (c : Char) (l : List Char) :
    ∃ y t, splitChar c l = y :: t := by
  cases h : splitChar c l with
  | nil => exact absurd h (splitChar_ne_nil c l)
  | cons y t => exact ⟨y, t, rfl⟩

theorem splitChar_append (c : Char) :
    ∀ xs ys : List Char,
      splitChar c (xs ++ c :: ys) = splitChar c xs ++ splitChar c ys := by
  intro xs
  induction xs with
  | nil =>
    intro ys
    rw [List.nil_append, splitChar_cons_eq]
    rfl
  | cons x xs ih =>
    intro ys
    by_cases hx : x = c
    · rw [hx, List.cons_append, splitChar_cons_eq, splitChar_cons_eq, ih ys,
        List.cons_append]
    · obtain ⟨y, t, hyt⟩ := splitChar_exists_cons c xs
      have h1 : splitChar c (x :: xs) = (x :: y) :: t := by
        rw [splitChar_cons_ne c x xs hx, hyt]
      have h2 : splitChar c (x :: (xs ++ c :: ys)) =
          (x :: y) :: (t ++ splitChar c ys) := by
        rw [splitChar_cons_ne c x _ hx, ih ys, hyt, List.cons_append]
      rw [List.cons_append, h2, h1, List.cons_append]

theorem splitChar_of_not_mem (c : Char) :
    ∀ l : List Char, c ∉ l → splitChar c l = [l] := by
  intro l
  induction l with
  | nil => intro _; rfl
  | cons x xs ih =>
    intro hmem
    by_cases hx : x = c
    · exact absurd (List.mem_cons.mpr (Or.inl hx.symm)) hmem
    · rw [splitChar_cons_ne c x xs hx,
        ih (fun h => hmem (List.mem_cons_of_mem x h))]

theorem joinChar_cons_head (c x : Char) (y : List Char) (ys : List (List Char)) :
    joinChar c ((x :: y) :: ys) = x :: joinChar c (y :: ys) := by
  cases ys with
  | nil => rfl
  | cons z zs => rfl

theorem joinChar_splitChar (c : Char) :
    ∀ l : List Char, joinChar c (splitChar c l) = l := by
  intro l
  induction l with
  | nil => rfl
  | cons x xs ih =>
    obtain ⟨y, t, hyt⟩ := splitChar_exists_cons c xs
    by_cases hx : x = c
    · rw [hx, splitChar_cons_eq, hyt]
      show ([] : List Char) ++ c :: joinChar c (y :: t) = c :: xs
      rw [List.nil_append, ← hyt, ih]
    · have h1 : splitChar c (x :: xs) = (x :: y) :: t := by
        rw [splitChar_cons_ne c x xs hx, hyt]
      rw [h1, joinChar_cons_head, ← hyt, ih]

theorem digitChar_lt10_ne_dash (m : Nat) (hm : m < 10) : Nat.digitChar m ≠ '-' := by
  interval_cases m <;> decide

theorem toDigitsCore_not_dash :
    ∀ (fuel n : Nat) (ds : List Char), '-' ∉ ds →
      '-' ∉ Nat.toDigitsCore 10 fuel n ds := by
  intro fuel
  induction fuel with
  | zero => intro n ds hds; exact hds
  | succ fuel ih =>
    intro n ds hds
    have hd : Nat.digitChar (n % 10) ≠ '-' :=
      digitChar_lt10_ne_dash (n % 10) (Nat.mod_lt n (by decide))
    have hcons : '-' ∉ Nat.digitChar (n % 10) :: ds := by
      intro hmem
      rcases List.mem_cons.mp hmem with h | h
      · exact hd h.symm
      · exact hds h
    show '-' ∉ (if n / 10 = 0 then Nat.digitChar (n % 10) :: ds
        else Nat.toDigitsCore 10 fuel (n / 10) (Nat.digitChar (n % 10) :: ds))
    split
    · exact hcons
    · exact ih (n / 10) _ hcons

theorem repr_not_dash (n : Nat) : '-' ∉ (Nat.repr n).data :=
  toDigitsCore_not_dash (n + 1) n [] (by simp)

/-- C9: round-trip of the composite row identifier — for every
`videoId` string (dashes included) and every positional index,
`handleDeleteMonitor`'s extraction (`split("-").slice(1,-1).join("-")`)
applied to the synthesized `` `video-${videoId}-${index}` `` returns
exactly the original `videoId`, because the final index segment (decimal
digits, never a dash) and the fixed "video" head are trimmed before
rejoining. -/
theorem claim_C9 (videoId : String) (index : Nat) :
    extractVideoId (rowId videoId index) = videoId := by
  have hdata : (rowId videoId index).data =
      ['v', 'i', 'd', 'e', 'o'] ++
        '-' :: (videoId.data ++ '-' :: (Nat.repr index).data) := by
    show ("video-" ++ videoId ++ "-" ++ Nat.repr index).data = _
    rw [String.data_append, String.data_append, String.data_append]
    simp [List.append_assoc]
  have hsplit : splitChar '-' (rowId videoId index).data =
      [['v', 'i', 'd', 'e', 'o']] ++
        (splitChar '-' videoId.data ++ [(Nat.repr index).data]) := by
    rw [hdata, splitChar_append '-' ['v', 'i', 'd', 'e', 'o'] _,
      splitChar_append '-' videoId.data _,
      splitChar_of_not_mem '-' ['v', 'i', 'd', 'e', 'o'] (by decide),
      splitChar_of_not_mem '-' (Nat.repr index).data (repr_not_dash index)]
  unfold extractVideoId
  rw [hsplit]
  have hdrop : (([['v', 'i', 'd', 'e', 'o']] ++
      (splitChar '-' videoId.data ++ [(Nat.repr index).data])).drop 1).dropLast =
      splitChar '-' videoId.data := by
    rw [List.singleton_append]
    show (splitChar '-' videoId.data ++ [(Nat.repr index).data]).dropLast =
      splitChar '-' videoId.data
    exact List.dropLast_concat
  rw [hdrop, joinChar_splitChar]
